import Mathlib

/-!
Shallow embedding of `packages/neuron-wallet/src/controllers/sync-api.ts`
(class `SyncApiController`), the sync-progress estimator of the neuron
wallet.

Modelling choices:

* JavaScript numbers that can become `NaN` or `Infinity` in this code
  (the two tips parsed with `parseInt`, and the index rate produced by a
  division whose divisor can be zero) are modelled by the type `JsNum`
  below: `NaN`, the two infinities, or a finite rational.  Quantities
  that are plain numbers throughout (timestamps from `Date.now()`, the
  best-known block number and timestamp delivered by the RPC layer) are
  modelled as integers.
* Every call to `Date.now()` inside one entry point is modelled as the
  same instant `now`, passed as an explicit parameter.
* The RPC results (`tipHeader`, best-known block info) and the current
  node URL are external inputs and appear as parameters.
* `parseInt` is modelled on its decimal fragment (optional leading
  spaces, optional sign, leading decimal digits; `NaN` when no digit is
  found), which covers the numeric strings and the fully non-numeric
  strings relevant here.
-/

/-- A JavaScript number as far as this controller can observe it:
`NaN`, `+Infinity`, `-Infinity`, or a finite value (modelled as an
exact rational; the controller only ever divides integers, compares,
and rounds, so double rounding is not observable in the claims). -/
inductive JsNum where
  | nan : JsNum
  | inf : JsNum
  | ninf : JsNum
  | num : ℚ → JsNum
  deriving DecidableEq, Repr

namespace JsNum

/-- JavaScript subtraction `a - b` on observable numbers. -/
def sub : JsNum → JsNum → JsNum
  | nan, _ => nan
  | _, nan => nan
  | inf, inf => nan
  | inf, _ => inf
  | ninf, ninf => nan
  | ninf, _ => ninf
  | num _, inf => ninf
  | num _, ninf => inf
  | num a, num b => num (a - b)

/-- JavaScript `<` (any comparison involving `NaN` is false). -/
def lt : JsNum → JsNum → Bool
  | nan, _ => false
  | _, nan => false
  | ninf, ninf => false
  | ninf, _ => true
  | _, ninf => false
  | inf, _ => false
  | num _, inf => true
  | num a, num b => decide (a < b)

/-- JavaScript strict equality `===` on numbers: `NaN === NaN` is false. -/
def seq : JsNum → JsNum → Bool
  | nan, _ => false
  | _, nan => false
  | inf, inf => true
  | inf, _ => false
  | ninf, ninf => true
  | ninf, _ => false
  | num a, num b => decide (a = b)
  | _, _ => false

/-- JavaScript division `a / b` (the sign-of-zero distinction is not
observable here: the quotient is only compared for truthiness and
rounded, and `Math.round` sends both zeroes to zero). -/
def jsDiv : JsNum → JsNum → JsNum
  | nan, _ => nan
  | _, nan => nan
  | inf, inf => nan
  | inf, ninf => nan
  | inf, num q => if 0 ≤ q then inf else ninf
  | ninf, inf => nan
  | ninf, ninf => nan
  | ninf, num q => if 0 ≤ q then ninf else inf
  | num _, inf => num 0
  | num _, ninf => num 0
  | num a, num b =>
      if b = 0 then (if 0 < a then inf else if a < 0 then ninf else nan)
      else num (a / b)

/-- JavaScript `Math.round`: round half towards positive infinity. -/
def jsRound : JsNum → JsNum
  | nan => nan
  | inf => inf
  | ninf => ninf
  | num q => num ((⌊q + 1/2⌋ : ℤ) : ℚ)

/-- JavaScript truthiness of a number: `NaN` and `0` are falsy. -/
def truthy : JsNum → Bool
  | nan => false
  | num q => decide (q ≠ 0)
  | _ => true

/-- Whether the value is a finite number. -/
def isFinite : JsNum → Bool
  | num _ => true
  | _ => false

end JsNum

/-- Value of a non-empty leading run of decimal digits. -/
def digitsValue (cs : List Char) : Option ℕ :=
  let ds := cs.takeWhile Char.isDigit
  if ds.isEmpty then none
  else some (ds.foldl (fun a c => a * 10 + (c.toNat - 48)) 0)

/-- JavaScript `parseInt` restricted to its decimal fragment: skip
leading spaces, read an optional sign and then leading decimal digits;
`NaN` when no digit is found (covers non-numeric strings such as
"abc").  The hexadecimal "0x" form is not modelled. -/
def parseIntJs (s : String) : JsNum :=
  match s.toList.dropWhile (fun c => c = ' ') with
  | '-' :: rest =>
      match digitsValue rest with
      | none => .nan
      | some n => .num (-(n : ℚ))
  | '+' :: rest =>
      match digitsValue rest with
      | none => .nan
      | some n => .num (n : ℚ)
  | cs =>
      match digitsValue cs with
      | none => .nan
      | some n => .num (n : ℚ)

/-- `SyncStatus` enum of `sync-api.ts`. -/
inductive SyncStatus where
  | SyncNotStart : SyncStatus
  | SyncPending : SyncStatus
  | Syncing : SyncStatus
  | SyncCompleted : SyncStatus
  deriving DecidableEq, Repr

/-- The `SyncState` interface of `sync-api.ts` (one sample). -/
structure SyncState where
  nodeUrl : String
  timestamp : ℤ
  indexerTipNumber : JsNum
  cacheTipNumber : JsNum
  bestKnownBlockNumber : ℤ
  bestKnownBlockTimestamp : ℤ
  indexRate : Option JsNum
  cacheRate : Option JsNum
  estimate : Option JsNum
  status : SyncStatus
  deriving DecidableEq, Repr

/-- `TEN_MINS` constant. -/
def TEN_MINS : ℤ := 600000

/-- `MAX_TIP_BLOCK_DELAY` constant. -/
def MAX_TIP_BLOCK_DELAY : ℤ := 180000

/-- `#sampleTime` field (sample horizon, ms). -/
def sampleTime : ℤ := 60000

/-- `#indexerTipDiff` field. -/
def indexerTipDiff : ℚ := 50

/-- `#cacheDiff` field. -/
def cacheDiff : ℚ := 5

/-- `#bestKnownBlockNumberDiff` field. -/
def bestKnownBlockNumberDiff : ℤ := 50

/-- `#getEstimatesByCurrentNode`: samples of the active node no older
than `sampleTime` relative to `now` (`Date.now()` at the call). -/
def getEstimatesByCurrentNode (es : List SyncState) (nodeUrl : String) (now : ℤ) :
    List SyncState :=
  es.filter fun state =>
    state.nodeUrl == nodeUrl && decide (now - state.timestamp ≤ sampleTime)

/-- `#calculateAvgIndexRate`: secant rate from the oldest fresh sample,
`undefined` when there is no fresh sample or the tip advanced by fewer
than `#indexerTipDiff` blocks.  The source has no guard on
`lastedTime`, so a zero or negative elapsed time still divides. -/
def calculateAvgIndexRate (es : List SyncState) (nodeUrl : String) (now : ℤ)
    (currentindexerTipNumber : JsNum) (timestamp : ℤ) : Option JsNum :=
  match (getEstimatesByCurrentNode es nodeUrl now).head? with
  | none => none
  | some firstState =>
      let advancedindexerTipNumber :=
        JsNum.sub currentindexerTipNumber firstState.indexerTipNumber
      if JsNum.lt advancedindexerTipNumber (.num indexerTipDiff) then none
      else
        let lastedTime := timestamp - firstState.timestamp
        some (JsNum.jsDiv advancedindexerTipNumber (.num (lastedTime : ℚ)))

/-- `#foundBestKnownBlockNumber`: the best-known tip is considered
stable when a fresh sample exists and the new best-known number is
fewer than `#bestKnownBlockNumberDiff` above the one of `estimates[0]`
(the oldest fresh sample). -/
def foundBestKnownBlockNumber (es : List SyncState) (nodeUrl : String) (now : ℤ)
    (bestKnownBlockNumber : ℤ) : Bool :=
  match (getEstimatesByCurrentNode es nodeUrl now).head? with
  | none => false
  | some lastEstimate =>
      if bestKnownBlockNumber - lastEstimate.bestKnownBlockNumber ≥
          bestKnownBlockNumberDiff then false
      else true

/-- `#updateEstimates`: refilter the window down to fresh samples of
the active node, then append the new sample. -/
def updateEstimates (es : List SyncState) (nodeUrl : String) (now : ℤ)
    (newSyncState : SyncState) : List SyncState :=
  ((getEstimatesByCurrentNode es nodeUrl now).filter fun state =>
      decide (now - state.timestamp ≤ sampleTime)) ++ [newSyncState]

/-- `#estimate`: build the new sample from one tick.  `tipTs` is
`Number(tipHeader.timestamp)`, `bkNum`/`bkTs` the best-known block info
from `#fetchBestKnownBlockInfo`, and the two tips are the already
parsed payload values.  Returns the new sample and the updated window
(`#updateEstimates` is applied at the end as in the source). -/
def estimate (es : List SyncState) (nodeUrl : String) (now tipTs bkNum bkTs : ℤ)
    (indexerTipNumber cacheTipNumber : JsNum) : SyncState × List SyncState :=
  let found := foundBestKnownBlockNumber es nodeUrl now bkNum
  let remainingBlocksToCache := JsNum.sub (.num (bkNum : ℚ)) cacheTipNumber
  let remainingBlocksToIndex := JsNum.sub (.num (bkNum : ℚ)) indexerTipNumber
  let base : SyncState :=
    { nodeUrl := nodeUrl
      timestamp := now
      indexerTipNumber := indexerTipNumber
      cacheTipNumber := cacheTipNumber
      bestKnownBlockNumber := bkNum
      bestKnownBlockTimestamp := bkTs
      indexRate := none
      cacheRate := none
      estimate := none
      status := .Syncing }
  let newSyncState :=
    if found then
      let allCached := JsNum.lt remainingBlocksToCache (.num cacheDiff)
      let s1 :=
        if allCached then
          let s0 :=
            if tipTs + MAX_TIP_BLOCK_DELAY ≥ now then
              { base with status := .SyncCompleted }
            else base
          if tipTs + TEN_MINS < now then { s0 with status := .SyncPending } else s0
        else base
      match calculateAvgIndexRate es nodeUrl now indexerTipNumber now with
      | some r =>
          if !allCached && JsNum.truthy r then
            { s1 with
                indexRate := some r
                estimate := some (JsNum.jsRound
                  (JsNum.jsDiv remainingBlocksToIndex r)) }
          else s1
      | none => s1
    else base
  (newSyncState, updateEstimates es nodeUrl now newSyncState)

/-- `getSyncStatus`: status of the newest sample, `SyncNotStart` when
the window is empty. -/
def getSyncStatus (es : List SyncState) : SyncStatus :=
  match es.getLast? with
  | none => .SyncNotStart
  | some lastEstimate => lastEstimate.status

/-- The `===` comparison of the two most recent samples' cache tips in
`getCachedEstimation` (only reached when the window has length > 1). -/
def penultSameCacheTip (es : List SyncState) : Bool :=
  match es.get? (es.length - 2), es.getLast? with
  | some p, some l => JsNum.seq p.cacheTipNumber l.cacheTipNumber
  | _, _ => false

/-- `getCachedEstimation`: returns the value handed to the consumer and
the new cached value (the source stores it in `#cachedEstimation`). -/
def getCachedEstimation (es : List SyncState) (cached : Option SyncState)
    (nodeUrl : String) (now : ℤ) : Option SyncState × Option SyncState :=
  let lastEstimation := es.getLast?
  match cached with
  | none => (lastEstimation, lastEstimation)
  | some c =>
      if 1 < es.length ∧ penultSameCacheTip es = true then
        (lastEstimation, lastEstimation)
      else if c.nodeUrl ≠ nodeUrl ∨ c.timestamp + sampleTime ≤ now then
        (lastEstimation, lastEstimation)
      else (some c, some c)

/-- Mutable state of the controller: the sample window `#estimates` and
the cache `#cachedEstimation`. -/
structure Controller where
  estimates : List SyncState
  cachedEstimation : Option SyncState
  deriving DecidableEq, Repr

/-- The zeroed bootstrap sample installed by the
`CurrentNetworkIDSubject` handler on a node change. -/
def bootstrapSample (nodeUrl : String) : SyncState :=
  { nodeUrl := nodeUrl
    timestamp := 0
    indexerTipNumber := .num 0
    cacheTipNumber := .num 0
    bestKnownBlockNumber := 0
    bestKnownBlockTimestamp := 0
    indexRate := none
    cacheRate := none
    estimate := none
    status := .SyncNotStart }

/-- The node-change handler: replace the window with the bootstrap
sample (the cache is not touched in the source) and publish it. -/
def handleNetworkChange (st : Controller) (nodeUrl : String) :
    Controller × SyncState :=
  let s := bootstrapSample nodeUrl
  ({ st with estimates := [s] }, s)

/-- `BigInt(x)` on an observable number succeeds exactly on integers;
`NaN` and the infinities throw a `RangeError`. -/
def bigIntOk : JsNum → Bool
  | .num q => decide (q.den = 1)
  | _ => false

/-- The `cache-tip-block-updated` handler: parse the raw payload with
`parseInt`, run `#estimate` (which pushes the new sample into the
window), then convert the cache tip with `BigInt` before publishing.
The second component is the published sample, `none` when the `BigInt`
conversion throws — note the window mutation has already happened. -/
def handleCacheTipUpdated (st : Controller) (rawIndexer rawCache : String)
    (nodeUrl : String) (now tipTs bkNum bkTs : ℤ) :
    Controller × Option SyncState :=
  let it := parseIntJs rawIndexer
  let ct := parseIntJs rawCache
  let r := estimate st.estimates nodeUrl now tipTs bkNum bkTs it ct
  ({ st with estimates := r.2 },
   if bigIntOk r.1.cacheTipNumber then some r.1 else none)

/-- Truthiness of the `number | undefined` rate value tested by
`if (!allCached && indexRate)` in `#estimate`. -/
def rateTruthy : Option JsNum → Bool
  | none => false
  | some r => r.truthy

/-- Concrete sample used in the counterexample for the elapsed-time
guard of the rate computation: its timestamp equals the tick instant,
so the elapsed time is zero. -/
def c2Sample : SyncState :=
  { nodeUrl := "u", timestamp := 100, indexerTipNumber := .num 0,
    cacheTipNumber := .num 0, bestKnownBlockNumber := 0,
    bestKnownBlockTimestamp := 0, indexRate := none, cacheRate := none,
    estimate := none, status := .Syncing }

/-- Older of the two concrete samples in the stability counterexample:
best-known number 0. -/
def c3Old : SyncState :=
  { nodeUrl := "u", timestamp := 50, indexerTipNumber := .num 0,
    cacheTipNumber := .num 0, bestKnownBlockNumber := 0,
    bestKnownBlockTimestamp := 0, indexRate := none, cacheRate := none,
    estimate := none, status := .Syncing }

/-- Newer of the two concrete samples in the stability counterexample:
best-known number 1000, equal to the incoming tick's best-known tip. -/
def c3New : SyncState :=
  { nodeUrl := "u", timestamp := 90, indexerTipNumber := .num 0,
    cacheTipNumber := .num 0, bestKnownBlockNumber := 1000,
    bestKnownBlockTimestamp := 0, indexRate := none, cacheRate := none,
    estimate := none, status := .Syncing }

/-- Concrete fresh sample for the C1 witness: same node, recent
timestamp, best-known number matching the tick. -/
def c1Sample : SyncState :=
  { nodeUrl := "u", timestamp := 90000, indexerTipNumber := .num 1000,
    cacheTipNumber := .num 1000, bestKnownBlockNumber := 1000,
    bestKnownBlockTimestamp := 0, indexRate := none, cacheRate := none,
    estimate := none, status := .Syncing }

/-- Concrete first sample for the C2 and C4 witnesses, taken from the
worked scenario of the specification (indexer tip 100, cache tip 90,
best-known 1000 at time 0). -/
def c4Sample : SyncState :=
  { nodeUrl := "u", timestamp := 0, indexerTipNumber := .num 100,
    cacheTipNumber := .num 90, bestKnownBlockNumber := 1000,
    bestKnownBlockTimestamp := 0, indexRate := none, cacheRate := none,
    estimate := none, status := .Syncing }

/-- Concrete sample for the C5 witness. -/
def c5Sample : SyncState :=
  { nodeUrl := "u", timestamp := 0, indexerTipNumber := .num 0,
    cacheTipNumber := .num 0, bestKnownBlockNumber := 0,
    bestKnownBlockTimestamp := 0, indexRate := none, cacheRate := none,
    estimate := none, status := .Syncing }

/-- Concrete cached sample for the C7 witness: owned by node "u",
timestamp 0. -/
def c7Cache : SyncState :=
  { nodeUrl := "u", timestamp := 0, indexerTipNumber := .num 1,
    cacheTipNumber := .num 1, bestKnownBlockNumber := 1,
    bestKnownBlockTimestamp := 0, indexRate := none, cacheRate := none,
    estimate := none, status := .Syncing }

/-- Membership in the per-node fresh view. -/
theorem mem_getEstimatesByCurrentNode {es : List SyncState} {nodeUrl : String}
    {now : ℤ} {s : SyncState} :
    s ∈ getEstimatesByCurrentNode es nodeUrl now ↔
      s ∈ es ∧ s.nodeUrl = nodeUrl ∧ now - s.timestamp ≤ sampleTime := by
  simp [getEstimatesByCurrentNode, List.mem_filter, and_assoc]

/-- A finite observable number is a rational. -/
theorem JsNum.isFinite_eq_true_iff {x : JsNum} :
    x.isFinite = true ↔ ∃ q : ℚ, x = .num q := by
  cases x <;> simp [JsNum.isFinite]

/-- C9: when the window is empty and nothing has ever been cached,
`getCachedEstimation` returns no sample (undefined) and stores that
undefined result as the cached value. -/
theorem getCachedEstimation_empty_uncached (nodeUrl : String) (now : ℤ) :
    getCachedEstimation [] none nodeUrl now = (none, none) :=
  rfl

/-- C6: handling an active-node-change event replaces the whole window
with exactly one zeroed bootstrap sample owned by the new node with
status `SyncNotStart`, and a subsequent `getSyncStatus` call returns
`SyncNotStart`. -/
theorem handleNetworkChange_resets (st : Controller) (nodeUrl : String) :
    (handleNetworkChange st nodeUrl).1.estimates = [bootstrapSample nodeUrl] ∧
    (handleNetworkChange st nodeUrl).2 = bootstrapSample nodeUrl ∧
    (bootstrapSample nodeUrl).nodeUrl = nodeUrl ∧
    (bootstrapSample nodeUrl).status = .SyncNotStart ∧
    (bootstrapSample nodeUrl).timestamp = 0 ∧
    (bootstrapSample nodeUrl).indexerTipNumber = .num 0 ∧
    (bootstrapSample nodeUrl).cacheTipNumber = .num 0 ∧
    (bootstrapSample nodeUrl).bestKnownBlockNumber = 0 ∧
    (bootstrapSample nodeUrl).bestKnownBlockTimestamp = 0 ∧
    (bootstrapSample nodeUrl).indexRate = none ∧
    (bootstrapSample nodeUrl).cacheRate = none ∧
    (bootstrapSample nodeUrl).estimate = none ∧
    getSyncStatus (handleNetworkChange st nodeUrl).1.estimates = .SyncNotStart := by
  refine ⟨rfl, rfl, rfl, rfl, rfl, rfl, rfl, rfl, rfl, rfl, rfl, rfl, rfl⟩

/-- C5: immediately after a push, the window contains only the pushed
sample plus samples that belong to the active node and whose age
relative to the prune time is at most `sampleTime` (60000 ms); no
stale or foreign-node sample survives a push. -/
theorem updateEstimates_window_invariant (es : List SyncState) (nodeUrl : String)
    (now : ℤ) (newSyncState s : SyncState)
    (h : s ∈ updateEstimates es nodeUrl now newSyncState) :
    s = newSyncState ∨ (s.nodeUrl = nodeUrl ∧ now - s.timestamp ≤ sampleTime) := by
  unfold updateEstimates at h
  rcases List.mem_append.mp h with h1 | h1
  · rcases List.mem_filter.mp h1 with ⟨h2, _⟩
    rcases mem_getEstimatesByCurrentNode.mp h2 with ⟨_, h4, h5⟩
    exact Or.inr ⟨h4, h5⟩
  · exact Or.inl (List.mem_singleton.mp h1)

/-- C5 witness: the invariant evaluated on a concrete push. -/
theorem updateEstimates_window_invariant_witness :
    c5Sample = c5Sample ∨
      (c5Sample.nodeUrl = "u" ∧ (0:ℤ) - c5Sample.timestamp ≤ sampleTime) :=
  updateEstimates_window_invariant [] "u" 0 c5Sample c5Sample (by decide)

/-- C7: when a cached sample exists, `getCachedEstimation` returns the
newest sample (refreshing the cache) whenever the window holds at
least two samples whose two most recent entries share the same cache
tip; otherwise it replaces the cache with the newest sample exactly
when the cached sample's node differs from the active node or the
cached sample is at least `sampleTime` old, and in all remaining
cases returns the existing cached sample unchanged.  (The no-cache
case is the subject of C9.) -/
theorem getCachedEstimation_policy (es : List SyncState) (c : SyncState)
    (nodeUrl : String) (now : ℤ) :
    ((1 < es.length ∧ penultSameCacheTip es = true) →
       getCachedEstimation es (some c) nodeUrl now = (es.getLast?, es.getLast?)) ∧
    (¬(1 < es.length ∧ penultSameCacheTip es = true) →
       (c.nodeUrl ≠ nodeUrl ∨ c.timestamp + sampleTime ≤ now) →
       getCachedEstimation es (some c) nodeUrl now = (es.getLast?, es.getLast?)) ∧
    (¬(1 < es.length ∧ penultSameCacheTip es = true) →
       ¬(c.nodeUrl ≠ nodeUrl ∨ c.timestamp + sampleTime ≤ now) →
       getCachedEstimation es (some c) nodeUrl now = (some c, some c)) := by
  have hdef : getCachedEstimation es (some c) nodeUrl now =
      if 1 < es.length ∧ penultSameCacheTip es = true then (es.getLast?, es.getLast?)
      else if c.nodeUrl ≠ nodeUrl ∨ c.timestamp + sampleTime ≤ now then
        (es.getLast?, es.getLast?)
      else (some c, some c) := rfl
  rw [hdef]
  refine ⟨fun h1 => ?_, fun h1 h2 => ?_, fun h1 h2 => ?_⟩
  · rw [if_pos h1]
  · rw [if_neg h1, if_pos h2]
  · rw [if_neg h1, if_neg h2]

/-- C7 witness: with an empty window and a fresh cached sample of the
active node, the cached sample is returned unchanged. -/
theorem getCachedEstimation_policy_witness :
    getCachedEstimation [] (some c7Cache) "u" 0 = (some c7Cache, some c7Cache) :=
  (getCachedEstimation_policy [] c7Cache "u" 0).2.2 (by decide) (by decide)

/-- C3 counterexample: a window with two fresh samples where the most
recent retained sample has best-known number equal to the incoming
best-known tip (difference 0 < 50), yet the stability check returns
false — because the source compares against `estimates[0]`, the oldest
retained sample (best-known 0, difference 1000 ≥ 50). -/
theorem foundBestKnownBlockNumber_most_recent_cex :
    (getEstimatesByCurrentNode [c3Old, c3New] "u" 100).getLast? = some c3New ∧
    (1000:ℤ) - c3New.bestKnownBlockNumber < bestKnownBlockNumberDiff ∧
    foundBestKnownBlockNumber [c3Old, c3New] "u" 100 1000 = false := by
  decide

/-- C3 (amended): `bestKnownTipStable` is true iff the oldest retained
sample for the active node exists and the new best-known tip minus
that oldest sample's best-known number is strictly less than 50. -/
theorem foundBestKnownBlockNumber_iff (es : List SyncState) (nodeUrl : String)
    (now bkNum : ℤ) :
    foundBestKnownBlockNumber es nodeUrl now bkNum = true ↔
      ∃ f, (getEstimatesByCurrentNode es nodeUrl now).head? = some f ∧
        bkNum - f.bestKnownBlockNumber < bestKnownBlockNumberDiff := by
  cases h : (getEstimatesByCurrentNode es nodeUrl now).head? with
  | none => simp [foundBestKnownBlockNumber, h]
  | some f =>
      simp only [foundBestKnownBlockNumber, h, Option.some.injEq]
      by_cases hge : bkNum - f.bestKnownBlockNumber ≥ bestKnownBlockNumberDiff
      · rw [if_pos hge]
        simp only [Bool.false_eq_true, false_iff, not_exists, not_and]
        intro g hg
        cases hg
        omega
      · rw [if_neg hge]
        simp only [true_iff]
        exact ⟨f, rfl, by omega⟩

/-- C2 counterexample: a fresh first sample whose timestamp equals the
tick instant, so the elapsed time is 0 ≤ 0; the claim demands `none`,
but the code divides anyway and returns `Infinity`. -/
theorem calculateAvgIndexRate_zero_elapsed_cex :
    (getEstimatesByCurrentNode [c2Sample] "u" 100).head? = some c2Sample ∧
    (100:ℤ) - c2Sample.timestamp ≤ 0 ∧
    calculateAvgIndexRate [c2Sample] "u" 100 (.num 50) 100 = some .inf := by
  refine ⟨by decide, by decide, ?_⟩
  norm_num [calculateAvgIndexRate, getEstimatesByCurrentNode, sampleTime,
    indexerTipDiff, JsNum.sub, JsNum.lt, JsNum.jsDiv, c2Sample, List.filter]

/-- C2 (amended): the average-index-rate computation returns
`undefined` exactly when the window holds no fresh sample for the
active node or the advanced tip height is below 50; there is no guard
on the elapsed time, so with a fresh first sample and sufficient
advance it returns the JavaScript quotient `advanced / elapsed` even
when `elapsed ≤ 0` (in particular `Infinity` when `elapsed = 0`). -/
theorem calculateAvgIndexRate_no_elapsed_guard (es : List SyncState)
    (nodeUrl : String) (now ts : ℤ) (tip : JsNum) :
    (calculateAvgIndexRate es nodeUrl now tip ts = none ↔
      (getEstimatesByCurrentNode es nodeUrl now).head? = none ∨
      (∃ f, (getEstimatesByCurrentNode es nodeUrl now).head? = some f ∧
        JsNum.lt (JsNum.sub tip f.indexerTipNumber) (.num indexerTipDiff) = true)) ∧
    (∀ f, (getEstimatesByCurrentNode es nodeUrl now).head? = some f →
      JsNum.lt (JsNum.sub tip f.indexerTipNumber) (.num indexerTipDiff) = false →
      calculateAvgIndexRate es nodeUrl now tip ts =
        some (JsNum.jsDiv (JsNum.sub tip f.indexerTipNumber)
          (.num ((ts - f.timestamp : ℤ) : ℚ)))) := by
  cases h : (getEstimatesByCurrentNode es nodeUrl now).head? with
  | none =>
      constructor
      · simp [calculateAvgIndexRate, h]
      · intro g hg
        exact absurd hg (by simp)
  | some f =>
      constructor
      · simp only [calculateAvgIndexRate, h, Option.some.injEq]
        split_ifs with hlt
        · simp only [true_iff]
          exact Or.inr ⟨f, rfl, hlt⟩
        · simp only [false_iff, not_or, not_exists, not_and]
          refine ⟨by simp, fun g hg => ?_⟩
          cases hg
          simpa using hlt
      · intro g hg hglt
        cases Option.some.inj hg
        simp only [calculateAvgIndexRate, h, hglt, Bool.false_eq_true, if_false]

/-- C2 witness: the amended value clause evaluated on the worked
scenario of the specification. -/
theorem calculateAvgIndexRate_no_elapsed_guard_witness :
    calculateAvgIndexRate [c4Sample] "u" 10000 (.num 160) 10000 =
      some (JsNum.jsDiv (JsNum.sub (.num 160) c4Sample.indexerTipNumber)
        (.num ((10000 - c4Sample.timestamp : ℤ) : ℚ))) :=
  (calculateAvgIndexRate_no_elapsed_guard [c4Sample] "u" 10000 10000 (.num 160)).2
    c4Sample (by decide) (by norm_num [JsNum.sub, JsNum.lt, indexerTipDiff, c4Sample])

/-- C1: on a tick where the best-known tip is stable and everything is
cached, the new sample's status is `SyncCompleted` when the tip age is
at most 180000 ms, `SyncPending` when the tip age exceeds 600000 ms
(the Pending check is evaluated after the Completed check), and stays
`Syncing` in the middle zone. -/
theorem estimate_status_when_allCached (es : List SyncState) (nodeUrl : String)
    (now tipTs bkNum bkTs : ℤ) (it ct : JsNum)
    (hfound : foundBestKnownBlockNumber es nodeUrl now bkNum = true)
    (hcached : JsNum.lt (JsNum.sub (.num (bkNum : ℚ)) ct) (.num cacheDiff) = true) :
    (now - tipTs ≤ MAX_TIP_BLOCK_DELAY →
       (estimate es nodeUrl now tipTs bkNum bkTs it ct).1.status = .SyncCompleted) ∧
    (TEN_MINS < now - tipTs →
       (estimate es nodeUrl now tipTs bkNum bkTs it ct).1.status = .SyncPending) ∧
    (MAX_TIP_BLOCK_DELAY < now - tipTs → now - tipTs ≤ TEN_MINS →
       (estimate es nodeUrl now tipTs bkNum bkTs it ct).1.status = .Syncing) := by
  cases hr : calculateAvgIndexRate es nodeUrl now it now with
  | none =>
      simp only [estimate, hfound, hcached, hr, if_true, Bool.not_true,
        Bool.false_and, Bool.false_eq_true, if_false, TEN_MINS, MAX_TIP_BLOCK_DELAY]
      refine ⟨fun h1 => ?_, fun h2 => ?_, fun h3 h4 => ?_⟩ <;>
        split_ifs <;> first | rfl | omega
  | some r =>
      simp only [estimate, hfound, hcached, hr, if_true, Bool.not_true,
        Bool.false_and, Bool.false_eq_true, if_false, TEN_MINS, MAX_TIP_BLOCK_DELAY]
      refine ⟨fun h1 => ?_, fun h2 => ?_, fun h3 h4 => ?_⟩ <;>
        split_ifs <;> first | rfl | omega

/-- C1 witness: tip age 100000 ms ≤ 180000 on a stable, all-cached
tick yields `SyncCompleted`. -/
theorem estimate_status_when_allCached_witness :
    (estimate [c1Sample] "u" 100000 0 1000 0 (.num 1000) (.num 1000)).1.status
      = .SyncCompleted :=
  (estimate_status_when_allCached [c1Sample] "u" 100000 0 1000 0 (.num 1000)
    (.num 1000) (by decide) (by norm_num [JsNum.sub, JsNum.lt, cacheDiff])).1
    (by norm_num [MAX_TIP_BLOCK_DELAY])

/-- The produced sample's identity fields are the tick's inputs in
every branch of `#estimate`. -/
theorem estimate_base_fields (es : List SyncState) (nodeUrl : String)
    (now tipTs bkNum bkTs : ℤ) (it ct : JsNum) :
    (estimate es nodeUrl now tipTs bkNum bkTs it ct).1.nodeUrl = nodeUrl ∧
    (estimate es nodeUrl now tipTs bkNum bkTs it ct).1.timestamp = now ∧
    (estimate es nodeUrl now tipTs bkNum bkTs it ct).1.indexerTipNumber = it ∧
    (estimate es nodeUrl now tipTs bkNum bkTs it ct).1.cacheTipNumber = ct := by
  cases hf : foundBestKnownBlockNumber es nodeUrl now bkNum with
  | false => simp [estimate, hf]
  | true =>
      cases hr : calculateAvgIndexRate es nodeUrl now it now with
      | none =>
          simp only [estimate, hf, hr, if_true]
          split_ifs <;> simp
      | some r =>
          simp only [estimate, hf, hr, if_true]
          split_ifs <;> simp

/-- The `indexRate` field of the produced sample, as a function of the
stability flag, the all-cached test and the truthiness of the rate. -/
theorem estimate_indexRate_def (es : List SyncState) (nodeUrl : String)
    (now tipTs bkNum bkTs : ℤ) (it ct : JsNum) :
    (estimate es nodeUrl now tipTs bkNum bkTs it ct).1.indexRate =
      if foundBestKnownBlockNumber es nodeUrl now bkNum = true ∧
         JsNum.lt (JsNum.sub (.num (bkNum : ℚ)) ct) (.num cacheDiff) = false ∧
         rateTruthy (calculateAvgIndexRate es nodeUrl now it now) = true
      then calculateAvgIndexRate es nodeUrl now it now
      else none := by
  cases hf : foundBestKnownBlockNumber es nodeUrl now bkNum with
  | false => simp [estimate, hf]
  | true =>
      cases hr : calculateAvgIndexRate es nodeUrl now it now with
      | none =>
          cases hc : JsNum.lt (JsNum.sub (.num (bkNum : ℚ)) ct) (.num cacheDiff) <;>
            simp [estimate, hf, hr, hc, rateTruthy] <;> split_ifs <;> simp
      | some r =>
          cases hc : JsNum.lt (JsNum.sub (.num (bkNum : ℚ)) ct) (.num cacheDiff) <;>
            cases ht : JsNum.truthy r <;>
              simp [estimate, hf, hr, hc, ht, rateTruthy] <;> split_ifs <;> simp

/-- The `estimate` field of the produced sample, as a function of the
same three conditions. -/
theorem estimate_estimate_def (es : List SyncState) (nodeUrl : String)
    (now tipTs bkNum bkTs : ℤ) (it ct : JsNum) :
    (estimate es nodeUrl now tipTs bkNum bkTs it ct).1.estimate =
      if foundBestKnownBlockNumber es nodeUrl now bkNum = true ∧
         JsNum.lt (JsNum.sub (.num (bkNum : ℚ)) ct) (.num cacheDiff) = false ∧
         rateTruthy (calculateAvgIndexRate es nodeUrl now it now) = true
      then (calculateAvgIndexRate es nodeUrl now it now).map fun r =>
        JsNum.jsRound (JsNum.jsDiv (JsNum.sub (.num (bkNum : ℚ)) it) r)
      else none := by
  cases hf : foundBestKnownBlockNumber es nodeUrl now bkNum with
  | false => simp [estimate, hf]
  | true =>
      cases hr : calculateAvgIndexRate es nodeUrl now it now with
      | none =>
          cases hc : JsNum.lt (JsNum.sub (.num (bkNum : ℚ)) ct) (.num cacheDiff) <;>
            simp [estimate, hf, hr, hc, rateTruthy] <;> split_ifs <;> simp
      | some r =>
          cases hc : JsNum.lt (JsNum.sub (.num (bkNum : ℚ)) ct) (.num cacheDiff) <;>
            cases ht : JsNum.truthy r <;>
              simp [estimate, hf, hr, hc, ht, rateTruthy] <;> split_ifs <;> simp

/-- When the current indexer tip and every window sample's indexer tip
are finite numbers, a computed rate is always truthy (the advance is
at least 50, so the quotient is a nonzero rational or `Infinity`). -/
theorem calculateAvgIndexRate_truthy (es : List SyncState) (nodeUrl : String)
    (now ts : ℤ) (it r : JsNum)
    (hit : it.isFinite = true)
    (hes : ∀ s ∈ es, s.indexerTipNumber.isFinite = true)
    (hr : calculateAvgIndexRate es nodeUrl now it ts = some r) :
    JsNum.truthy r = true := by
  cases h : (getEstimatesByCurrentNode es nodeUrl now).head? with
  | none => simp [calculateAvgIndexRate, h] at hr
  | some f =>
      have hfmem : f ∈ getEstimatesByCurrentNode es nodeUrl now :=
        List.mem_of_mem_head? (Option.mem_def.mpr h)
      have hf : f ∈ es := (mem_getEstimatesByCurrentNode.mp hfmem).1
      rcases JsNum.isFinite_eq_true_iff.mp hit with ⟨a, ha⟩
      rcases JsNum.isFinite_eq_true_iff.mp (hes f hf) with ⟨b, hb⟩
      simp only [calculateAvgIndexRate, h, ha, hb, JsNum.sub] at hr
      split_ifs at hr with hlt
      have h50 : indexerTipDiff ≤ a - b := by
        simp only [JsNum.lt, decide_eq_true_eq] at hlt
        exact le_of_not_lt hlt
      have hpos : (0:ℚ) < a - b :=
        lt_of_lt_of_le (by norm_num [indexerTipDiff]) h50
      cases Option.some.inj hr
      by_cases he : ((ts:ℚ) - (f.timestamp:ℚ)) = 0
      · have he2 : ((ts - f.timestamp : ℤ) : ℚ) = 0 := by push_cast; exact he
        simp [JsNum.jsDiv, he, he2, hpos, JsNum.truthy]
      · have he2 : ((ts - f.timestamp : ℤ) : ℚ) ≠ 0 := by push_cast; exact he
        simp [JsNum.jsDiv, he, he2, JsNum.truthy]
        exact ne_of_gt hpos

/-- C4: the produced sample carries a numeric `indexRate` and a
numeric `estimate` if and only if the best-known tip is stable,
`allCached` is false and a rate is computable; in particular an
all-cached tick never carries a numeric estimate, and when set the
stored rate is the computed rate and the estimate is
`Math.round((bestKnownTip - indexerTip) / rate)`.  The hypotheses
restrict the tick's indexer tip and the retained samples' indexer
tips to finite numbers, the claim's numeric reading. -/
theorem estimate_rate_fields_iff (es : List SyncState) (nodeUrl : String)
    (now tipTs bkNum bkTs : ℤ) (it ct : JsNum)
    (hit : it.isFinite = true)
    (hes : ∀ s ∈ es, s.indexerTipNumber.isFinite = true) :
    (((estimate es nodeUrl now tipTs bkNum bkTs it ct).1.indexRate.isSome = true ∧
      (estimate es nodeUrl now tipTs bkNum bkTs it ct).1.estimate.isSome = true) ↔
      (foundBestKnownBlockNumber es nodeUrl now bkNum = true ∧
       JsNum.lt (JsNum.sub (.num (bkNum : ℚ)) ct) (.num cacheDiff) = false ∧
       (calculateAvgIndexRate es nodeUrl now it now).isSome = true)) ∧
    (∀ r, (estimate es nodeUrl now tipTs bkNum bkTs it ct).1.indexRate = some r →
       calculateAvgIndexRate es nodeUrl now it now = some r ∧
       (estimate es nodeUrl now tipTs bkNum bkTs it ct).1.estimate =
         some (JsNum.jsRound (JsNum.jsDiv (JsNum.sub (.num (bkNum : ℚ)) it) r))) := by
  have hA := estimate_indexRate_def es nodeUrl now tipTs bkNum bkTs it ct
  have hB := estimate_estimate_def es nodeUrl now tipTs bkNum bkTs it ct
  have htr : rateTruthy (calculateAvgIndexRate es nodeUrl now it now) =
      (calculateAvgIndexRate es nodeUrl now it now).isSome := by
    cases hrr : calculateAvgIndexRate es nodeUrl now it now with
    | none => rfl
    | some r =>
        simp [rateTruthy,
          calculateAvgIndexRate_truthy es nodeUrl now now it r hit hes hrr]
  rw [htr] at hA hB
  by_cases hcond : foundBestKnownBlockNumber es nodeUrl now bkNum = true ∧
      JsNum.lt (JsNum.sub (.num (bkNum : ℚ)) ct) (.num cacheDiff) = false ∧
      (calculateAvgIndexRate es nodeUrl now it now).isSome = true
  · rw [if_pos hcond] at hA hB
    rcases hcond with ⟨h1, h2, h3⟩
    rcases Option.isSome_iff_exists.mp h3 with ⟨r, hrr⟩
    constructor
    · simp [hA, hB, hrr, h1, h2, h3]
    · intro r' hr'
      rw [hA, hrr] at hr'
      cases Option.some.inj hr'
      refine ⟨hrr, ?_⟩
      rw [hB, hrr]
      rfl
  · rw [if_neg hcond] at hA hB
    constructor
    · simp only [hA, hB]
      simp [hcond]
    · intro r' hr'
      rw [hA] at hr'
      exact absurd hr' (by simp)

/-- C4 witness: on the worked scenario of the specification (stable
tip, not all cached, computable rate) both fields are populated. -/
theorem estimate_rate_fields_iff_witness :
    (estimate [c4Sample] "u" 10000 0 1005 0 (.num 160) (.num 95)).1.indexRate.isSome
      = true ∧
    (estimate [c4Sample] "u" 10000 0 1005 0 (.num 160) (.num 95)).1.estimate.isSome
      = true :=
  (estimate_rate_fields_iff [c4Sample] "u" 10000 0 1005 0 (.num 160) (.num 95)
    (by decide) (by decide)).1.mpr
    ⟨by decide,
     by norm_num [JsNum.sub, JsNum.lt, cacheDiff],
     by norm_num [calculateAvgIndexRate, getEstimatesByCurrentNode, sampleTime,
       indexerTipDiff, JsNum.sub, JsNum.lt, JsNum.jsDiv, c4Sample, List.filter,
       Option.isSome]⟩

/-- C8 counterexample: with an empty window and the malformed payload
"abc" for both tips, the tick is not aborted at parse time: a sample
is pushed (the window changes) and only the later `BigInt` conversion
fails (nothing is published). -/
theorem handleCacheTipUpdated_bad_input_cex :
    (handleCacheTipUpdated ⟨[], none⟩ "abc" "abc" "u" 0 0 0 0).1.estimates ≠ [] ∧
    (handleCacheTipUpdated ⟨[], none⟩ "abc" "abc" "u" 0 0 0 0).2 = none := by
  decide

/-- C8 (amended): a non-numeric tip string does not abort the tick at
parse time: `parseInt` yields `NaN`, the computation completes and a
sample carrying the parsed tips is appended to the re-filtered window;
when the cache tip is `NaN` the subsequent `BigInt` conversion in the
handler throws, so nothing is published — but the window has already
been mutated. -/
theorem handleCacheTipUpdated_pushes (st : Controller)
    (rawIndexer rawCache nodeUrl : String) (now tipTs bkNum bkTs : ℤ) :
    (∃ s : SyncState,
       s.nodeUrl = nodeUrl ∧ s.timestamp = now ∧
       s.indexerTipNumber = parseIntJs rawIndexer ∧
       s.cacheTipNumber = parseIntJs rawCache ∧
       (handleCacheTipUpdated st rawIndexer rawCache nodeUrl now tipTs bkNum bkTs).1.estimates
         = ((getEstimatesByCurrentNode st.estimates nodeUrl now).filter fun state =>
             decide (now - state.timestamp ≤ sampleTime)) ++ [s]) ∧
    (parseIntJs rawCache = JsNum.nan →
       (handleCacheTipUpdated st rawIndexer rawCache nodeUrl now tipTs bkNum bkTs).2
         = none) := by
  obtain ⟨hn, ht, hi, hc⟩ := estimate_base_fields st.estimates nodeUrl now tipTs
    bkNum bkTs (parseIntJs rawIndexer) (parseIntJs rawCache)
  constructor
  · exact ⟨(estimate st.estimates nodeUrl now tipTs bkNum bkTs
      (parseIntJs rawIndexer) (parseIntJs rawCache)).1, hn, ht, hi, hc, rfl⟩
  · intro hnan
    have hbig : bigIntOk (estimate st.estimates nodeUrl now tipTs bkNum bkTs
        (parseIntJs rawIndexer) (parseIntJs rawCache)).1.cacheTipNumber = false := by
      rw [hc, hnan]
      rfl
    simp [handleCacheTipUpdated, hbig]

/-- C8 witness: the publication-abort clause on a concrete malformed
payload. -/
theorem handleCacheTipUpdated_pushes_witness :
    (handleCacheTipUpdated ⟨[], none⟩ "abc" "abc" "u" 0 0 0 0).2 = none :=
  (handleCacheTipUpdated_pushes ⟨[], none⟩ "abc" "abc" "u" 0 0 0 0).2 (by decide)

/-- C10: the bootstrap sample installed by a reset has timestamp 0, so
for any clock value past the sample horizon it is excluded from every
per-node filtered view, never serves as the first sample for rate
computation or as the previous sample for the stability check, and is
pruned from the window by the first subsequent push; consequently the
first tick after a reset has `bestKnownTipStable` false and carries no
rate or estimate. -/
theorem reset_bootstrap_inert (st : Controller) (url : String) (now : ℤ)
    (hnow : sampleTime < now) (tipTs bkNum bkTs : ℤ) (it ct : JsNum) :
    (∀ url2, getEstimatesByCurrentNode (handleNetworkChange st url).1.estimates
       url2 now = []) ∧
    (∀ url2 bk, foundBestKnownBlockNumber (handleNetworkChange st url).1.estimates
       url2 now bk = false) ∧
    (∀ url2 tip ts, calculateAvgIndexRate (handleNetworkChange st url).1.estimates
       url2 now tip ts = none) ∧
    (estimate (handleNetworkChange st url).1.estimates url now tipTs bkNum bkTs
       it ct).1.indexRate = none ∧
    (estimate (handleNetworkChange st url).1.estimates url now tipTs bkNum bkTs
       it ct).1.estimate = none ∧
    (estimate (handleNetworkChange st url).1.estimates url now tipTs bkNum bkTs
       it ct).2
      = [(estimate (handleNetworkChange st url).1.estimates url now tipTs bkNum
          bkTs it ct).1] := by
  have hstale : ¬ (now ≤ sampleTime) := by omega
  have hempty : ∀ url2, getEstimatesByCurrentNode
      (handleNetworkChange st url).1.estimates url2 now = [] := by
    intro url2
    simp [handleNetworkChange, getEstimatesByCurrentNode, bootstrapSample, hstale]
  have hfound : ∀ bk, foundBestKnownBlockNumber
      (handleNetworkChange st url).1.estimates url now bk = false := by
    intro bk
    simp [foundBestKnownBlockNumber, hempty url]
  refine ⟨hempty, ?_, ?_, ?_, ?_, ?_⟩
  · intro url2 bk
    simp [foundBestKnownBlockNumber, hempty url2]
  · intro url2 tip ts
    simp [calculateAvgIndexRate, hempty url2]
  · rw [estimate_indexRate_def]
    simp [hfound bkNum]
  · rw [estimate_estimate_def]
    simp [hfound bkNum]
  · have hsplit : (estimate (handleNetworkChange st url).1.estimates url now tipTs
        bkNum bkTs it ct).2 =
        updateEstimates (handleNetworkChange st url).1.estimates url now
          (estimate (handleNetworkChange st url).1.estimates url now tipTs bkNum
            bkTs it ct).1 := rfl
    rw [hsplit, updateEstimates, hempty url]
    rfl

/-- C10 witness: with the clock one millisecond past the horizon, the
bootstrap sample is invisible in the filtered view. -/
theorem reset_bootstrap_inert_witness :
    getEstimatesByCurrentNode (handleNetworkChange ⟨[], none⟩ "u").1.estimates
      "u" 60001 = [] :=
  (reset_bootstrap_inert ⟨[], none⟩ "u" 60001 (by decide) 0 0 0
    (.num 0) (.num 0)).1 "u"
